import Mathlib

/-!
Verification of the McHacks 3D model generator frontend
(`frontend/app/page.tsx`, the `Home` component).

The component keeps its state in React `useState` hooks plus a mutable
`meshRef`.  We embed that state as an explicit record `AppState` and each
event handler of the source as a pure state-transition function:

* `handleGenerate`   — the prompt-to-model pipeline (lines 113-223);
* `updatePosition` / `updateScale` / `updateRotation` — the transform
  setters (lines 246-274);
* `resetTransforms`  — the reset button (lines 277-286);
* `clickGenerate` / `promptKeyDown` — the two UI trigger paths for
  generation (button, line 638-640, and the textarea key handler,
  lines 608-613).

Modelling conventions:

* Numbers entered through the UI are modelled as exact rationals `ℚ`
  (the JS literal 0.1 is modelled as the rational 1/10).
* A three.js mesh stores its Euler rotation in radians; every radian
  value the component ever writes is `d * π / 180` for a user-entered
  degree value `d`, i.e. a rational multiple of π.  The field
  `MeshObj.rotationPi` stores that rational factor (radians divided by
  π), an exact representation because multiplication by π is injective.
* GPU resources (geometry, material, the wireframe child's geometry and
  material) are modelled as numeric ids; `AppState.disposed` records the
  ids on which `dispose()` has been called, and `AppState.sceneMeshes`
  the ids of generated meshes currently added to the scene.
* The browser's `atob` and three.js's `STLLoader.parse` are external
  library calls; they are parameters of `handleGenerate`, returning
  `Except String _` where the `String` is the thrown exception's message.
* React state updates inside one handler are batched: every read inside
  `handleGenerate` sees the pre-call snapshot (the render closure), and
  the final state is the snapshot with all queued writes applied, in
  order.  The embedding computes that final state directly.
-/

namespace McHacks

/-- Coordinate axis selector, the `'x' | 'y' | 'z'` union type of the
transform setters. -/
inductive Axis where
  | x
  | y
  | z
deriving DecidableEq

/-- A 3-component vector of exact rationals, standing for the plain
`{x, y, z}` records held in React state and for three.js vectors. -/
structure Vec3 where
  x : ℚ
  y : ℚ
  z : ℚ
deriving DecidableEq

/-- The zero vector (default position and rotation). -/
def Vec3.zero : Vec3 := ⟨0, 0, 0⟩

/-- The all-ones vector (default scale). -/
def Vec3.one : Vec3 := ⟨1, 1, 1⟩

/-- Functional update of one component, the `{ ...v, [axis]: value }`
spread used by the setters. -/
def Vec3.setAxis : Vec3 → Axis → ℚ → Vec3
  | v, .x, q => { v with x := q }
  | v, .y, q => { v with y := q }
  | v, .z, q => { v with z := q }

/-- Read one component of a vector. -/
def Vec3.getAxis : Vec3 → Axis → ℚ
  | v, .x => v.x
  | v, .y => v.y
  | v, .z => v.z

/-- Componentwise division by a scalar (used for the degree-to-radian
factor d/180). -/
def Vec3.divBy (v : Vec3) (d : ℚ) : Vec3 := ⟨v.x / d, v.y / d, v.z / d⟩

/-- The displayable mesh object built in `handleGenerate`: a three.js
`Mesh` with its own geometry and material, and a `LineSegments` child
holding an `EdgesGeometry` and a `LineBasicMaterial`.  Resource ids
stand for the four GPU-resident objects.  `rotationPi` is the Euler
rotation in radians divided by π (see the file comment). -/
structure MeshObj where
  geomId : ℕ
  matId : ℕ
  wireGeomId : ℕ
  wireMatId : ℕ
  position : Vec3
  scale : Vec3
  rotationPi : Vec3
deriving DecidableEq

/-- The component's state: the `useState` hooks of `Home`, the mutable
`meshRef`, and the scene/resource bookkeeping described in the file
comment. -/
structure AppState where
  prompt : String
  generatedCode : String
  currentStlData : Option String
  loading : Bool
  error : Option String
  position : Vec3
  scale : Vec3
  rotation : Vec3
  meshRef : Option MeshObj
  sceneMeshes : List ℕ
  disposed : List ℕ
  nextId : ℕ
deriving DecidableEq

/-- The state after the component mounts: the initial values of every
`useState` hook, no mesh, an empty scene. -/
def initialState : AppState where
  prompt := ""
  generatedCode := ""
  currentStlData := none
  loading := false
  error := none
  position := Vec3.zero
  scale := Vec3.one
  rotation := Vec3.zero
  meshRef := none
  sceneMeshes := []
  disposed := []
  nextId := 0

/-- Model of the JS builtin `String.prototype.trim`: drop whitespace
from both ends (defined over the character list so that it reduces in
the kernel). -/
def jsTrim (s : String) : String :=
  ⟨((s.data.dropWhile Char.isWhitespace).reverse.dropWhile
      Char.isWhitespace).reverse⟩

/-- JS truthiness of a string: non-empty. -/
def truthyStr (x : String) : Bool := x ≠ ""

/-- JS truthiness of a nullable string: non-null and non-empty. -/
def truthyOptStr : Option String → Bool
  | none => false
  | some d => truthyStr d

/-- The `currentStlData && generatedCode` refinement guard of line 128,
read from the render closure (the pre-call snapshot). -/
def refineActive (s : AppState) : Bool :=
  truthyOptStr s.currentStlData && truthyStr s.generatedCode

/-- The JSON body POSTed to the generation endpoint (lines 125-131). -/
structure RequestBody where
  prompt : String
  current_stl_data : Option String
  current_code : Option String
deriving DecidableEq

/-- Request construction: always the prompt; the two refinement fields
exactly when the guard of line 128 holds. -/
def mkRequest (s : AppState) : RequestBody :=
  if refineActive s then
    { prompt := s.prompt
      current_stl_data := s.currentStlData
      current_code := some s.generatedCode }
  else
    { prompt := s.prompt, current_stl_data := none, current_code := none }

/-- The HTTP response observed by `handleGenerate`: either a non-ok
status whose body text is read (lines 141-144), or an ok status whose
JSON carries `stl_data` and `openscad_code` (lines 147-154). -/
inductive HttpResponse where
  | failure (body : String)
  | success (stl_data : String) (openscad_code : String)
deriving DecidableEq

/-- Lines 156-161: if a mesh is currently referenced, remove it from the
scene and dispose its geometry and its material.  The wireframe child's
resources are not touched by this block. -/
def disposeOld (s : AppState) : AppState :=
  match s.meshRef with
  | none => s
  | some m =>
    { s with
        sceneMeshes := s.sceneMeshes.filter (· ≠ m.geomId)
        disposed := s.disposed ++ [m.geomId, m.matId] }

/-- The mesh object constructed on lines 176-195: fresh geometry,
material, edges geometry and line material (four fresh resource ids),
with the default three.js transform (position 0, scale 1, rotation 0). -/
def freshMesh (n : ℕ) : MeshObj where
  geomId := n
  matId := n + 1
  wireGeomId := n + 2
  wireMatId := n + 3
  position := Vec3.zero
  scale := Vec3.one
  rotationPi := Vec3.zero

/-- The `handleGenerate` handler (lines 113-223), as a function of the
pre-call state, the HTTP response the single `fetch` would observe, and
the external decode functions.  Returns the post-call state together
with the request body sent, `none` when no network call was made. -/
def handleGenerate (atob : String → Except String (List ℕ))
    (parseStl : List ℕ → Except String Unit)
    (s : AppState) (resp : HttpResponse) : AppState × Option RequestBody :=
  if jsTrim s.prompt = "" then
    ({ s with error := some "Please enter a description" }, none)
  else
    let req := mkRequest s
    match resp with
    | .failure body =>
      ({ s with loading := false, error := some body, generatedCode := "" },
        some req)
    | .success stl code =>
      match atob stl with
      | .error e =>
        ({ s with loading := false, error := some e, generatedCode := "" },
          some req)
      | .ok bytes =>
        let s1 := { s with generatedCode := code, currentStlData := some stl }
        let s2 := disposeOld s1
        match parseStl bytes with
        | .error e =>
          ({ s2 with loading := false, error := some e }, some req)
        | .ok _ =>
          let mesh := freshMesh s2.nextId
          ({ s2 with
              meshRef := some mesh
              sceneMeshes := s2.sceneMeshes ++ [mesh.geomId]
              nextId := s2.nextId + 4
              prompt := ""
              loading := false
              error := none }, some req)

/-- The position setter (lines 246-252): store the updated vector and,
if a mesh is referenced, apply the full stored vector to it. -/
def updatePosition (s : AppState) (a : Axis) (v : ℚ) : AppState :=
  let newPos := s.position.setAxis a v
  { s with
      position := newPos
      meshRef := s.meshRef.map fun m => { m with position := newPos } }

/-- The scale setter (lines 255-261): clamp the incoming value to a
minimum of 1/10 (the JS literal 0.1), store, and apply. -/
def updateScale (s : AppState) (a : Axis) (v : ℚ) : AppState :=
  let newScale := s.scale.setAxis a (max (1/10) v)
  { s with
      scale := newScale
      meshRef := s.meshRef.map fun m => { m with scale := newScale } }

/-- The rotation setter (lines 264-274): store degrees, apply radians
(`d * π / 180`, represented by the rational factor d/180). -/
def updateRotation (s : AppState) (a : Axis) (v : ℚ) : AppState :=
  let newRot := s.rotation.setAxis a v
  { s with
      rotation := newRot
      meshRef := s.meshRef.map fun m => { m with rotationPi := newRot.divBy 180 } }

/-- The reset button (lines 277-286): stored vectors and mesh transform
back to identity. -/
def resetTransforms (s : AppState) : AppState :=
  { s with
      position := Vec3.zero
      scale := Vec3.one
      rotation := Vec3.zero
      meshRef := s.meshRef.map fun m =>
        { m with position := Vec3.zero, scale := Vec3.one, rotationPi := Vec3.zero } }

/-- The generate button (lines 638-640): `disabled={loading}`, so a
click while loading does nothing at all. -/
def clickGenerate (atob : String → Except String (List ℕ))
    (parseStl : List ℕ → Except String Unit)
    (s : AppState) (resp : HttpResponse) : AppState × Option RequestBody :=
  if s.loading then (s, none) else handleGenerate atob parseStl s resp

/-- The textarea key handler (lines 608-613): on Enter without Shift it
calls `handleGenerate` unconditionally — there is no loading check. -/
def promptKeyDown (key : String) (shiftKey : Bool)
    (atob : String → Except String (List ℕ))
    (parseStl : List ℕ → Except String Unit)
    (s : AppState) (resp : HttpResponse) : AppState × Option RequestBody :=
  if key = "Enter" && !shiftKey then handleGenerate atob parseStl s resp
  else (s, none)

/-- One user-visible event of the component: a generation attempt under
an arbitrary environment (response and decoder behaviour), editing the
prompt text, one of the three transform setters, or reset. -/
inductive Step : AppState → AppState → Prop where
  | generate (s : AppState) (atob : String → Except String (List ℕ))
      (parseStl : List ℕ → Except String Unit) (resp : HttpResponse) :
      Step s (handleGenerate atob parseStl s resp).1
  | editPrompt (s : AppState) (p : String) : Step s { s with prompt := p }
  | pos (s : AppState) (a : Axis) (v : ℚ) : Step s (updatePosition s a v)
  | scl (s : AppState) (a : Axis) (v : ℚ) : Step s (updateScale s a v)
  | rot (s : AppState) (a : Axis) (v : ℚ) : Step s (updateRotation s a v)
  | reset (s : AppState) : Step s (resetTransforms s)

/-- States reachable from the mounted component by any event sequence. -/
def Reachable (s : AppState) : Prop :=
  Relation.ReflTransGen Step initialState s

/-- The camera's vertical field of view in radians: the constructor
argument is 75 degrees (line 38), converted on line 207 by
`fov * (Math.PI / 180)`. -/
noncomputable def fovRad : ℝ := 75 * (Real.pi / 180)

/-- Lines 208-209: `Math.abs(maxDim / 2 / Math.tan(fov / 2)) * 1.5`,
the single scalar used for all three camera coordinates. -/
noncomputable def cameraFitDistance (maxDim : ℝ) : ℝ :=
  |maxDim / 2 / Real.tan (fovRad / 2)| * 1.5

/-- The camera pose written by the fit block. -/
structure CameraPose where
  posX : ℝ
  posY : ℝ
  posZ : ℝ
  targetX : ℝ
  targetY : ℝ
  targetZ : ℝ

/-- Lines 202-213: position the camera at `(d, d, d)` for the fit
distance `d` of the mesh's largest bounding-box dimension, and look at
the origin. -/
noncomputable def fitCameraTo (maxDim : ℝ) : CameraPose where
  posX := cameraFitDistance maxDim
  posY := cameraFitDistance maxDim
  posZ := cameraFitDistance maxDim
  targetX := 0
  targetY := 0
  targetZ := 0

/-- The stored Transform State agrees with the transform actually
applied to the referenced mesh (rotation compared after the
degree-to-radian conversion, i.e. on the rational factor of π). -/
def InSync (s : AppState) : Prop :=
  ∀ m, s.meshRef = some m →
    m.position = s.position ∧ m.scale = s.scale ∧
      m.rotationPi = s.rotation.divBy 180

/-- Scene-content invariant: the scene holds no generated mesh, or
exactly the one currently referenced by `meshRef`. -/
def SceneInv (s : AppState) : Prop :=
  s.sceneMeshes = [] ∨ ∃ m, s.meshRef = some m ∧ s.sceneMeshes = [m.geomId]

/-- Every stored and applied scale component is strictly positive. -/
def ScalePos (s : AppState) : Prop :=
  (0 < s.scale.x ∧ 0 < s.scale.y ∧ 0 < s.scale.z) ∧
    ∀ m, s.meshRef = some m → 0 < m.scale.x ∧ 0 < m.scale.y ∧ 0 < m.scale.z

/-- State a transform setter must not touch: prompt, session fields,
error/loading, scene content, disposal record, and the identity and
resources of the referenced mesh (its geometry is never rebuilt). -/
def UnrelatedFrozen (s t : AppState) : Prop :=
  t.prompt = s.prompt ∧ t.generatedCode = s.generatedCode ∧
    t.currentStlData = s.currentStlData ∧ t.error = s.error ∧
    t.loading = s.loading ∧ t.sceneMeshes = s.sceneMeshes ∧
    t.disposed = s.disposed ∧ t.nextId = s.nextId ∧
    t.meshRef.map MeshObj.geomId = s.meshRef.map MeshObj.geomId ∧
    t.meshRef.map MeshObj.matId = s.meshRef.map MeshObj.matId ∧
    t.meshRef.map MeshObj.wireGeomId = s.meshRef.map MeshObj.wireGeomId ∧
    t.meshRef.map MeshObj.wireMatId = s.meshRef.map MeshObj.wireMatId

/-- Environment in which base64 decoding succeeds (the decoded bytes
are irrelevant to the claims). -/
def okAtob : String → Except String (List ℕ) := fun _ => .ok []

/-- Environment in which the binary STL parse succeeds. -/
def okParse : List ℕ → Except String Unit := fun _ => .ok ()

/-- Environment in which the binary STL parse throws. -/
def badParse : List ℕ → Except String Unit := fun _ => .error "parse failed"

/-- Fixture: a state after one successful generation, with the prompt
refilled — the refinement fields are both present and a mesh with
resource ids 0..3 is displayed. -/
def fixtureWithMesh : AppState :=
  { initialState with
      prompt := "a"
      generatedCode := "cube(10);"
      currentStlData := some "QUJD"
      meshRef := some (freshMesh 0)
      sceneMeshes := [0]
      nextId := 4 }

/-- Fixture trace: a successful generation from the freshly mounted
component with prompt `a`. -/
def genOnce : AppState :=
  (handleGenerate okAtob okParse { initialState with prompt := "a" }
    (.success "QUJD" "cube(10);")).1

/-- Fixture trace: then the user drags the position-x control to 5. -/
def genOnceMoved : AppState := updatePosition genOnce .x 5

/-- Fixture trace: then a second successful generation with prompt
`b`. -/
def genTwiceMoved : AppState :=
  (handleGenerate okAtob okParse { genOnceMoved with prompt := "b" }
    (.success "QUJD" "sphere(5);")).1

/-- Fixture trace: a failed generation (HTTP 500) after the successful
one. -/
def genOnceFailed : AppState :=
  (handleGenerate okAtob okParse { genOnce with prompt := "b" }
    (.failure "oops")).1

/-! ## Generic lemmas about the handlers -/

/-- Reading the component just written. -/
theorem Vec3.getAxis_setAxis_same (w : Vec3) (a : Axis) (q : ℚ) :
    (w.setAxis a q).getAxis a = q := by
  cases a <;> rfl

/-- Reading a component other than the one written. -/
theorem Vec3.getAxis_setAxis_other (w : Vec3) (a b : Axis) (q : ℚ)
    (h : b ≠ a) : (w.setAxis a q).getAxis b = w.getAxis b := by
  cases a <;> cases b <;> simp_all [Vec3.setAxis, Vec3.getAxis]

/-- The disposal block leaves the mesh reference itself untouched. -/
theorem disposeOld_meshRef (s : AppState) : (disposeOld s).meshRef = s.meshRef := by
  cases h : s.meshRef <;> simp [disposeOld, h]

/-- The disposal block leaves the stored position untouched. -/
theorem disposeOld_position (s : AppState) :
    (disposeOld s).position = s.position := by
  cases h : s.meshRef <;> simp [disposeOld, h]

/-- The disposal block leaves the stored scale untouched. -/
theorem disposeOld_scale (s : AppState) : (disposeOld s).scale = s.scale := by
  cases h : s.meshRef <;> simp [disposeOld, h]

/-- The disposal block leaves the stored rotation untouched. -/
theorem disposeOld_rotation (s : AppState) :
    (disposeOld s).rotation = s.rotation := by
  cases h : s.meshRef <;> simp [disposeOld, h]

/-- The disposal block leaves the session fields untouched. -/
theorem disposeOld_generatedCode (s : AppState) :
    (disposeOld s).generatedCode = s.generatedCode := by
  cases h : s.meshRef <;> simp [disposeOld, h]

/-- The disposal block leaves the stored payload untouched. -/
theorem disposeOld_currentStlData (s : AppState) :
    (disposeOld s).currentStlData = s.currentStlData := by
  cases h : s.meshRef <;> simp [disposeOld, h]

/-- The disposal block leaves the prompt untouched. -/
theorem disposeOld_prompt (s : AppState) : (disposeOld s).prompt = s.prompt := by
  cases h : s.meshRef <;> simp [disposeOld, h]

/-- The disposal block leaves the id source untouched. -/
theorem disposeOld_nextId (s : AppState) : (disposeOld s).nextId = s.nextId := by
  cases h : s.meshRef <;> simp [disposeOld, h]

/-- With a non-empty trimmed prompt, every branch of `handleGenerate`
issues exactly the request built from the pre-call snapshot. -/
theorem handleGenerate_request (atob : String → Except String (List ℕ))
    (parseStl : List ℕ → Except String Unit) (s : AppState)
    (resp : HttpResponse) (h : jsTrim s.prompt ≠ "") :
    (handleGenerate atob parseStl s resp).2 = some (mkRequest s) := by
  cases resp with
  | failure body => simp [handleGenerate, h]
  | success stl code =>
    cases hA : atob stl with
    | error e => simp [handleGenerate, h, hA]
    | ok bytes =>
      cases hP : parseStl bytes with
      | error e => simp [handleGenerate, h, hA, hP]
      | ok u => simp [handleGenerate, h, hA, hP]

/-- No branch of `handleGenerate` touches the stored position vector. -/
theorem handleGenerate_position (atob : String → Except String (List ℕ))
    (parseStl : List ℕ → Except String Unit) (s : AppState)
    (resp : HttpResponse) :
    (handleGenerate atob parseStl s resp).1.position = s.position := by
  by_cases h : jsTrim s.prompt = ""
  · simp [handleGenerate, h]
  · cases resp with
    | failure body => simp [handleGenerate, h]
    | success stl code =>
      cases hA : atob stl with
      | error e => simp [handleGenerate, h, hA]
      | ok bytes =>
        cases hP : parseStl bytes with
        | error e => simp [handleGenerate, h, hA, hP, disposeOld_position]
        | ok u => simp [handleGenerate, h, hA, hP, disposeOld_position]

/-- No branch of `handleGenerate` touches the stored scale vector. -/
theorem handleGenerate_scale (atob : String → Except String (List ℕ))
    (parseStl : List ℕ → Except String Unit) (s : AppState)
    (resp : HttpResponse) :
    (handleGenerate atob parseStl s resp).1.scale = s.scale := by
  by_cases h : jsTrim s.prompt = ""
  · simp [handleGenerate, h]
  · cases resp with
    | failure body => simp [handleGenerate, h]
    | success stl code =>
      cases hA : atob stl with
      | error e => simp [handleGenerate, h, hA]
      | ok bytes =>
        cases hP : parseStl bytes with
        | error e => simp [handleGenerate, h, hA, hP, disposeOld_scale]
        | ok u => simp [handleGenerate, h, hA, hP, disposeOld_scale]

/-- No branch of `handleGenerate` touches the stored rotation vector. -/
theorem handleGenerate_rotation (atob : String → Except String (List ℕ))
    (parseStl : List ℕ → Except String Unit) (s : AppState)
    (resp : HttpResponse) :
    (handleGenerate atob parseStl s resp).1.rotation = s.rotation := by
  by_cases h : jsTrim s.prompt = ""
  · simp [handleGenerate, h]
  · cases resp with
    | failure body => simp [handleGenerate, h]
    | success stl code =>
      cases hA : atob stl with
      | error e => simp [handleGenerate, h, hA]
      | ok bytes =>
        cases hP : parseStl bytes with
        | error e => simp [handleGenerate, h, hA, hP, disposeOld_rotation]
        | ok u => simp [handleGenerate, h, hA, hP, disposeOld_rotation]

/-- A generation either leaves the mesh reference alone (validation
failure, HTTP failure, decode or parse failure) or installs the freshly
built mesh. -/
theorem handleGenerate_meshRef (atob : String → Except String (List ℕ))
    (parseStl : List ℕ → Except String Unit) (s : AppState)
    (resp : HttpResponse) :
    (handleGenerate atob parseStl s resp).1.meshRef = s.meshRef ∨
    (handleGenerate atob parseStl s resp).1.meshRef =
      some (freshMesh s.nextId) := by
  by_cases h : jsTrim s.prompt = ""
  · left; simp [handleGenerate, h]
  · cases resp with
    | failure body => left; simp [handleGenerate, h]
    | success stl code =>
      cases hA : atob stl with
      | error e => left; simp [handleGenerate, h, hA]
      | ok bytes =>
        cases hP : parseStl bytes with
        | error e => left; simp [handleGenerate, h, hA, hP, disposeOld_meshRef]
        | ok u => right; simp [handleGenerate, h, hA, hP, disposeOld_nextId]

/-! ## C7 — prompt validation -/

/-- C7: a generation call with an empty-after-trim prompt issues no
network request and changes only the error message (set to the inline
validation message); with a non-empty-after-trim prompt it issues
exactly one request. -/
theorem C7_promptValidation (atob : String → Except String (List ℕ))
    (parseStl : List ℕ → Except String Unit) (s : AppState)
    (resp : HttpResponse) :
    (jsTrim s.prompt = "" →
      (handleGenerate atob parseStl s resp).2 = none ∧
      (handleGenerate atob parseStl s resp).1 =
        { s with error := some "Please enter a description" }) ∧
    (jsTrim s.prompt ≠ "" →
      (handleGenerate atob parseStl s resp).2 = some (mkRequest s)) := by
  constructor
  · intro h
    constructor <;> simp [handleGenerate, h]
  · intro h
    exact handleGenerate_request atob parseStl s resp h

/-- Witness for C7 at the freshly mounted state (empty prompt) and at a
state whose prompt is `a`. -/
theorem C7_promptValidation_witness :
    (jsTrim initialState.prompt = "" ∧
      (handleGenerate okAtob okParse initialState (.failure "x")).2 = none) ∧
    (jsTrim fixtureWithMesh.prompt ≠ "" ∧
      (handleGenerate okAtob okParse fixtureWithMesh (.failure "x")).2 =
        some (mkRequest fixtureWithMesh)) :=
  ⟨⟨by decide,
    ((C7_promptValidation okAtob okParse initialState (.failure "x")).1
      (by decide)).1⟩,
   ⟨by decide,
    (C7_promptValidation okAtob okParse fixtureWithMesh (.failure "x")).2
      (by decide)⟩⟩

/-! ## C1 — non-success HTTP response -/

/-- C1 (amended): on a non-success response the call fails with the
server's body text as the error message; the displayed mesh, the scene,
the disposal record, `currentStlData` and the prompt are unchanged and
the in-flight flag is cleared — but `generatedCode` is unconditionally
cleared to the empty string at the start of the call and is still empty
after the failure. -/
theorem C1_generationError (atob : String → Except String (List ℕ))
    (parseStl : List ℕ → Except String Unit) (s : AppState) (body : String)
    (h : jsTrim s.prompt ≠ "") :
    (handleGenerate atob parseStl s (.failure body)).1.error = some body ∧
    (handleGenerate atob parseStl s (.failure body)).1.meshRef = s.meshRef ∧
    (handleGenerate atob parseStl s (.failure body)).1.sceneMeshes =
      s.sceneMeshes ∧
    (handleGenerate atob parseStl s (.failure body)).1.disposed = s.disposed ∧
    (handleGenerate atob parseStl s (.failure body)).1.currentStlData =
      s.currentStlData ∧
    (handleGenerate atob parseStl s (.failure body)).1.prompt = s.prompt ∧
    (handleGenerate atob parseStl s (.failure body)).1.generatedCode = "" ∧
    (handleGenerate atob parseStl s (.failure body)).1.loading = false := by
  simp [handleGenerate, h]

/-- Witness for C1: an HTTP 500 with body `bad prompt` while a mesh is
displayed. -/
theorem C1_generationError_witness :
    jsTrim fixtureWithMesh.prompt ≠ "" ∧
    (handleGenerate okAtob okParse fixtureWithMesh
        (.failure "bad prompt")).1.error = some "bad prompt" ∧
    (handleGenerate okAtob okParse fixtureWithMesh
        (.failure "bad prompt")).1.meshRef = fixtureWithMesh.meshRef :=
  ⟨by decide,
   (C1_generationError okAtob okParse fixtureWithMesh "bad prompt"
      (by decide)).1,
   (C1_generationError okAtob okParse fixtureWithMesh "bad prompt"
      (by decide)).2.1⟩

/-- Counterexample to C1 as stated: after a successful generation the
stored procedural source is `cube(10);`; a subsequent failed call does
not leave it unchanged — it has been cleared to the empty string. -/
theorem C1_cex :
    (handleGenerate okAtob okParse fixtureWithMesh
        (.failure "bad prompt")).1.generatedCode ≠
      fixtureWithMesh.generatedCode := by
  decide

/-! ## C10 — frame effect of the transform setters -/

/-- C10: each transform setter modifies only the addressed component of
its own vector; the other two components of that vector, the other two
stored vectors, the mesh's other transform vectors, and all unrelated
state (prompt, session fields, error, loading, scene content, disposal
record, the mesh's geometry/material resources) are unchanged. -/
theorem C10_setterFrame :
    (∀ (s : AppState) (a : Axis) (v : ℚ),
      UnrelatedFrozen s (updatePosition s a v) ∧
      (updatePosition s a v).scale = s.scale ∧
      (updatePosition s a v).rotation = s.rotation ∧
      (updatePosition s a v).meshRef.map MeshObj.scale =
        s.meshRef.map MeshObj.scale ∧
      (updatePosition s a v).meshRef.map MeshObj.rotationPi =
        s.meshRef.map MeshObj.rotationPi ∧
      (updatePosition s a v).position.getAxis a = v ∧
      ∀ b, b ≠ a →
        (updatePosition s a v).position.getAxis b = s.position.getAxis b) ∧
    (∀ (s : AppState) (a : Axis) (v : ℚ),
      UnrelatedFrozen s (updateScale s a v) ∧
      (updateScale s a v).position = s.position ∧
      (updateScale s a v).rotation = s.rotation ∧
      (updateScale s a v).meshRef.map MeshObj.position =
        s.meshRef.map MeshObj.position ∧
      (updateScale s a v).meshRef.map MeshObj.rotationPi =
        s.meshRef.map MeshObj.rotationPi ∧
      ∀ b, b ≠ a →
        (updateScale s a v).scale.getAxis b = s.scale.getAxis b) ∧
    (∀ (s : AppState) (a : Axis) (v : ℚ),
      UnrelatedFrozen s (updateRotation s a v) ∧
      (updateRotation s a v).position = s.position ∧
      (updateRotation s a v).scale = s.scale ∧
      (updateRotation s a v).meshRef.map MeshObj.position =
        s.meshRef.map MeshObj.position ∧
      (updateRotation s a v).meshRef.map MeshObj.scale =
        s.meshRef.map MeshObj.scale ∧
      (updateRotation s a v).rotation.getAxis a = v ∧
      ∀ b, b ≠ a →
        (updateRotation s a v).rotation.getAxis b = s.rotation.getAxis b) := by
  refine ⟨fun s a v => ⟨?_, ?_, ?_, ?_, ?_, ?_, ?_⟩,
          fun s a v => ⟨?_, ?_, ?_, ?_, ?_, ?_⟩,
          fun s a v => ⟨?_, ?_, ?_, ?_, ?_, ?_, ?_⟩⟩ <;>
  first
    | exact fun b hb => Vec3.getAxis_setAxis_other _ _ _ _ hb
    | exact Vec3.getAxis_setAxis_same _ _ _
    | rfl
    | (cases h : s.meshRef <;>
        simp [updatePosition, updateScale, updateRotation,
          UnrelatedFrozen, h])

/-- Witness for C10: setting position x to 5 on the fixture state
leaves the y component, the scale vector, and the session fields
unchanged. -/
theorem C10_setterFrame_witness :
    Axis.y ≠ Axis.x ∧
    (updatePosition fixtureWithMesh Axis.x 5).position.getAxis Axis.y =
      fixtureWithMesh.position.getAxis Axis.y ∧
    (updatePosition fixtureWithMesh Axis.x 5).scale = fixtureWithMesh.scale ∧
    UnrelatedFrozen fixtureWithMesh (updatePosition fixtureWithMesh Axis.x 5) :=
  ⟨by decide,
   (C10_setterFrame.1 fixtureWithMesh Axis.x 5).2.2.2.2.2.2 Axis.y (by decide),
   (C10_setterFrame.1 fixtureWithMesh Axis.x 5).2.1,
   (C10_setterFrame.1 fixtureWithMesh Axis.x 5).1⟩

/-! ## C9 — scale clamping -/

/-- Writing a clamped value into a componentwise-positive vector keeps
every component positive. -/
theorem scalePos_setAxis {w : Vec3} (hw : 0 < w.x ∧ 0 < w.y ∧ 0 < w.z)
    (a : Axis) (v : ℚ) :
    0 < (w.setAxis a (max (1/10) v)).x ∧
    0 < (w.setAxis a (max (1/10) v)).y ∧
    0 < (w.setAxis a (max (1/10) v)).z := by
  have hpos : (0 : ℚ) < max (1/10) v :=
    lt_of_lt_of_le (by norm_num) (le_max_left _ _)
  cases a with
  | x => exact ⟨hpos, hw.2.1, hw.2.2⟩
  | y => exact ⟨hw.1, hpos, hw.2.2⟩
  | z => exact ⟨hw.1, hw.2.1, hpos⟩

/-- Every event of the component preserves scale positivity. -/
theorem scalePos_step {s t : AppState} (hs : ScalePos s) (h : Step s t) :
    ScalePos t := by
  obtain ⟨hstore, hmesh⟩ := hs
  cases h with
  | generate atob parseStl resp =>
    refine ⟨by rw [handleGenerate_scale]; exact hstore, ?_⟩
    intro m hm
    rcases handleGenerate_meshRef atob parseStl s resp with hR | hR
    · exact hmesh m ((hR ▸ hm : s.meshRef = some m))
    · rw [hR] at hm
      obtain rfl := (Option.some.injEq _ _).mp hm
      exact ⟨by norm_num [freshMesh, Vec3.one], by norm_num [freshMesh, Vec3.one],
        by norm_num [freshMesh, Vec3.one]⟩
  | editPrompt p => exact ⟨hstore, hmesh⟩
  | pos a v =>
    refine ⟨hstore, ?_⟩
    intro m hm
    cases hM : s.meshRef with
    | none => simp [updatePosition, hM] at hm
    | some m0 =>
      simp only [updatePosition, hM, Option.map_some] at hm
      obtain rfl := (Option.some.injEq _ _).mp hm
      exact hmesh m0 hM
  | scl a v =>
    refine ⟨scalePos_setAxis hstore a v, ?_⟩
    intro m hm
    cases hM : s.meshRef with
    | none => simp [updateScale, hM] at hm
    | some m0 =>
      simp only [updateScale, hM, Option.map_some] at hm
      obtain rfl := (Option.some.injEq _ _).mp hm
      exact scalePos_setAxis hstore a v
  | rot a v =>
    refine ⟨hstore, ?_⟩
    intro m hm
    cases hM : s.meshRef with
    | none => simp [updateRotation, hM] at hm
    | some m0 =>
      simp only [updateRotation, hM, Option.map_some] at hm
      obtain rfl := (Option.some.injEq _ _).mp hm
      exact hmesh m0 hM
  | reset =>
    refine ⟨⟨by norm_num [resetTransforms, Vec3.one], by norm_num [resetTransforms, Vec3.one],
      by norm_num [resetTransforms, Vec3.one]⟩, ?_⟩
    intro m hm
    cases hM : s.meshRef with
    | none => simp [resetTransforms, hM] at hm
    | some m0 =>
      simp only [resetTransforms, hM, Option.map_some] at hm
      obtain rfl := (Option.some.injEq _ _).mp hm
      exact ⟨by norm_num [Vec3.one], by norm_num [Vec3.one], by norm_num [Vec3.one]⟩

/-- C9: the scale setter stores and applies the clamped value
`max(1/10, v)` for the addressed axis, and in every reachable state no
stored or applied scale component is zero or negative. -/
theorem C9_scaleClamp :
    (∀ (s : AppState) (a : Axis) (v : ℚ),
      (updateScale s a v).scale = s.scale.setAxis a (max (1/10) v) ∧
      (updateScale s a v).scale.getAxis a = max (1/10) v ∧
      ∀ m, (updateScale s a v).meshRef = some m →
        m.scale = (updateScale s a v).scale) ∧
    (∀ s, Reachable s → ScalePos s) := by
  constructor
  · intro s a v
    refine ⟨rfl, Vec3.getAxis_setAxis_same _ _ _, ?_⟩
    intro m hm
    cases hM : s.meshRef with
    | none => simp [updateScale, hM] at hm
    | some m0 =>
      simp only [updateScale, hM, Option.map_some] at hm
      obtain rfl := (Option.some.injEq _ _).mp hm
      rfl
  · intro s h
    induction h with
    | refl =>
      exact ⟨⟨by norm_num [initialState, Vec3.one], by norm_num [initialState, Vec3.one],
        by norm_num [initialState, Vec3.one]⟩, by intro m hm; cases hm⟩
    | tail _ hstep ih => exact scalePos_step ih hstep

/-- Witness for C9: inputs 0 and -5 both clamp to 1/10, and scale
positivity holds at the freshly mounted state. -/
theorem C9_scaleClamp_witness :
    (updateScale initialState Axis.x 0).scale.getAxis Axis.x = 1/10 ∧
    (updateScale initialState Axis.x (-5)).scale.getAxis Axis.x = 1/10 ∧
    ScalePos initialState := by
  refine ⟨?_, ?_, C9_scaleClamp.2 initialState Relation.ReflTransGen.refl⟩
  · rw [(C9_scaleClamp.1 initialState Axis.x 0).2.1]
    exact max_eq_left (by norm_num)
  · rw [(C9_scaleClamp.1 initialState Axis.x (-5)).2.1]
    exact max_eq_left (by norm_num)

/-! ## C6 — in-flight generation guard -/

/-- Fixture: the fixture state while a generation request is pending. -/
def loadingState : AppState := { fixtureWithMesh with loading := true }

/-- C6 (amended): while a generation request is in flight, a click on
the generate button is ignored (the button is disabled) and issues no
request; but the Enter-key path in the prompt field performs no
in-flight check and issues a second network request whenever the prompt
is non-empty after trimming. -/
theorem C6_inFlightGuard (atob : String → Except String (List ℕ))
    (parseStl : List ℕ → Except String Unit) (s : AppState)
    (resp : HttpResponse) (hl : s.loading = true)
    (hp : jsTrim s.prompt ≠ "") :
    clickGenerate atob parseStl s resp = (s, none) ∧
    (promptKeyDown "Enter" false atob parseStl s resp).2 =
      some (mkRequest s) := by
  constructor
  · simp [clickGenerate, hl]
  · simp only [promptKeyDown, Bool.not_false, Bool.and_true, decide_eq_true_eq,
      if_pos rfl]
    exact handleGenerate_request atob parseStl s resp hp

/-- Witness for C6 at the loading fixture state. -/
theorem C6_inFlightGuard_witness :
    loadingState.loading = true ∧ jsTrim loadingState.prompt ≠ "" ∧
    clickGenerate okAtob okParse loadingState (.failure "busy") =
      (loadingState, none) ∧
    (promptKeyDown "Enter" false okAtob okParse loadingState
        (.failure "busy")).2 = some (mkRequest loadingState) :=
  ⟨rfl, by decide,
   (C6_inFlightGuard okAtob okParse loadingState (.failure "busy") rfl
      (by decide)).1,
   (C6_inFlightGuard okAtob okParse loadingState (.failure "busy") rfl
      (by decide)).2⟩

/-- Counterexample to C6 as stated: with a request pending
(`loading = true`) and a non-empty prompt, pressing Enter in the prompt
field still issues a network request. -/
theorem C6_cex :
    (promptKeyDown "Enter" false okAtob okParse loadingState
        (.failure "busy")).2 ≠ none := by
  decide

/-! ## C5 — refinement fields -/

/-- C5 (amended): with a non-empty trimmed prompt, the outgoing request
carries the prompt and carries `current_stl_data`/`current_code` exactly
when both session fields are (truthily) present in the pre-call
snapshot.  The both-present-or-both-absent invariant itself does not
hold in every reachable state (see the counterexample). -/
theorem C5_refinementRequest (atob : String → Except String (List ℕ))
    (parseStl : List ℕ → Except String Unit) (s : AppState)
    (resp : HttpResponse) (h : jsTrim s.prompt ≠ "") :
    (handleGenerate atob parseStl s resp).2 = some (mkRequest s) ∧
    (mkRequest s).prompt = s.prompt ∧
    (refineActive s = true →
      (mkRequest s).current_stl_data = s.currentStlData ∧
      (mkRequest s).current_code = some s.generatedCode) ∧
    (refineActive s = false →
      (mkRequest s).current_stl_data = none ∧
      (mkRequest s).current_code = none) := by
  refine ⟨handleGenerate_request atob parseStl s resp h, ?_, ?_, ?_⟩
  · cases hr : refineActive s <;> simp [mkRequest, hr]
  · intro hr; simp [mkRequest, hr]
  · intro hr; simp [mkRequest, hr]

/-- Witness for C5: the second `generate` call from the fixture state
includes both stored refinement fields in the request body. -/
theorem C5_refinementRequest_witness :
    jsTrim fixtureWithMesh.prompt ≠ "" ∧
    refineActive fixtureWithMesh = true ∧
    (handleGenerate okAtob okParse fixtureWithMesh (.failure "x")).2 =
      some (mkRequest fixtureWithMesh) ∧
    (mkRequest fixtureWithMesh).current_stl_data =
      fixtureWithMesh.currentStlData ∧
    (mkRequest fixtureWithMesh).current_code =
      some fixtureWithMesh.generatedCode :=
  ⟨by decide, by decide,
   (C5_refinementRequest okAtob okParse fixtureWithMesh (.failure "x")
      (by decide)).1,
   ((C5_refinementRequest okAtob okParse fixtureWithMesh (.failure "x")
      (by decide)).2.2.1 (by decide)).1,
   ((C5_refinementRequest okAtob okParse fixtureWithMesh (.failure "x")
      (by decide)).2.2.1 (by decide)).2⟩

/-- Counterexample to C5's invariant: in the reachable state after a
successful generation followed by a failed one, the stored payload is
still present while the stored procedural source has been cleared. -/
theorem C5_cex :
    Reachable genOnceFailed ∧
    truthyOptStr genOnceFailed.currentStlData = true ∧
    truthyStr genOnceFailed.generatedCode = false := by
  refine ⟨?_, by decide, by decide⟩
  exact Relation.ReflTransGen.tail (Relation.ReflTransGen.tail
    (Relation.ReflTransGen.tail
      (Relation.ReflTransGen.tail Relation.ReflTransGen.refl
        (Step.editPrompt initialState "a"))
      (Step.generate _ okAtob okParse (.success "QUJD" "cube(10);")))
    (Step.editPrompt _ "b"))
    (Step.generate _ okAtob okParse (.failure "oops"))

/-! ## C2 — malformed payload in a success response -/

/-- C2 (amended): for a success response whose payload is malformed, no
new mesh is installed and the thrown exception's message is surfaced.
On base64 failure the mesh, scene, disposal record and stored payload
are untouched but the stored procedural source has been cleared; on
binary-parse failure the session fields have already been overwritten
with the new payload and the prior mesh has already been removed from
the scene and its geometry and material disposed before the failure. -/
theorem C2_decodeFailure (atob : String → Except String (List ℕ))
    (parseStl : List ℕ → Except String Unit) (s : AppState)
    (stl code : String) (h : jsTrim s.prompt ≠ "") :
    (∀ e, atob stl = .error e →
      (handleGenerate atob parseStl s (.success stl code)).1.error = some e ∧
      (handleGenerate atob parseStl s (.success stl code)).1.meshRef =
        s.meshRef ∧
      (handleGenerate atob parseStl s (.success stl code)).1.sceneMeshes =
        s.sceneMeshes ∧
      (handleGenerate atob parseStl s (.success stl code)).1.disposed =
        s.disposed ∧
      (handleGenerate atob parseStl s (.success stl code)).1.currentStlData =
        s.currentStlData ∧
      (handleGenerate atob parseStl s (.success stl code)).1.generatedCode =
        "" ∧
      (handleGenerate atob parseStl s (.success stl code)).1.nextId =
        s.nextId ∧
      (handleGenerate atob parseStl s (.success stl code)).1.prompt =
        s.prompt) ∧
    (∀ bytes e, atob stl = .ok bytes → parseStl bytes = .error e →
      (handleGenerate atob parseStl s (.success stl code)).1.error = some e ∧
      (handleGenerate atob parseStl s (.success stl code)).1.meshRef =
        s.meshRef ∧
      (handleGenerate atob parseStl s (.success stl code)).1.nextId =
        s.nextId ∧
      (handleGenerate atob parseStl s (.success stl code)).1.generatedCode =
        code ∧
      (handleGenerate atob parseStl s (.success stl code)).1.currentStlData =
        some stl ∧
      (handleGenerate atob parseStl s (.success stl code)).1.prompt =
        s.prompt ∧
      ∀ m, s.meshRef = some m →
        m.geomId ∉
          (handleGenerate atob parseStl s (.success stl code)).1.sceneMeshes ∧
        m.geomId ∈
          (handleGenerate atob parseStl s (.success stl code)).1.disposed ∧
        m.matId ∈
          (handleGenerate atob parseStl s (.success stl code)).1.disposed) := by
  constructor
  · intro e hA
    simp [handleGenerate, h, hA]
  · intro bytes e hA hP
    refine ⟨?_, ?_, ?_, ?_, ?_, ?_, ?_⟩
    case refine_7 =>
      intro m hm
      simp [handleGenerate, h, hA, hP, disposeOld, hm, List.mem_filter]
    all_goals
      simp [handleGenerate, h, hA, hP, disposeOld_meshRef,
        disposeOld_nextId, disposeOld_generatedCode,
        disposeOld_currentStlData, disposeOld_prompt]

/-- Witness for C2 in the base64-failure case: the error is surfaced
and the mesh is untouched. -/
theorem C2_decodeFailure_witness :
    jsTrim fixtureWithMesh.prompt ≠ "" ∧
    (fun _ => Except.error "bad base64" :
        String → Except String (List ℕ)) "QUJD" = .error "bad base64" ∧
    (handleGenerate (fun _ => .error "bad base64") okParse fixtureWithMesh
        (.success "QUJD" "sphere(5);")).1.error = some "bad base64" ∧
    (handleGenerate (fun _ => .error "bad base64") okParse fixtureWithMesh
        (.success "QUJD" "sphere(5);")).1.meshRef = fixtureWithMesh.meshRef :=
  ⟨by decide, rfl,
   ((C2_decodeFailure (fun _ => .error "bad base64") okParse fixtureWithMesh
      "QUJD" "sphere(5);" (by decide)).1 "bad base64" rfl).1,
   ((C2_decodeFailure (fun _ => .error "bad base64") okParse fixtureWithMesh
      "QUJD" "sphere(5);" (by decide)).1 "bad base64" rfl).2.1⟩

/-- Counterexample to C2 as stated: when the binary parse of an
otherwise-success response fails, the previously displayed mesh (ids
0/1) has been removed from the scene and disposed, and the stored
procedural source no longer has its pre-call value. -/
theorem C2_cex :
    (0 : ℕ) ∈ (handleGenerate okAtob badParse fixtureWithMesh
        (.success "QUJD" "sphere(5);")).1.disposed ∧
    (0 : ℕ) ∉ (handleGenerate okAtob badParse fixtureWithMesh
        (.success "QUJD" "sphere(5);")).1.sceneMeshes ∧
    (handleGenerate okAtob badParse fixtureWithMesh
        (.success "QUJD" "sphere(5);")).1.generatedCode ≠
      fixtureWithMesh.generatedCode := by
  decide

/-! ## C3 — transform state / applied transform sync -/

/-- C3 (amended): every transform setter preserves the sync invariant
between stored Transform State and the mesh's applied transform
(each setter re-applies its full stored vector), and reset establishes
it outright; but a successful generation installs the new mesh with the
identity transform while leaving the stored vectors unchanged, so after
a mesh replacement the invariant holds only if the stored transform was
identity. -/
theorem C3_transformSync :
    (∀ (s : AppState) (a : Axis) (v : ℚ),
      InSync s → InSync (updatePosition s a v)) ∧
    (∀ (s : AppState) (a : Axis) (v : ℚ),
      InSync s → InSync (updateScale s a v)) ∧
    (∀ (s : AppState) (a : Axis) (v : ℚ),
      InSync s → InSync (updateRotation s a v)) ∧
    (∀ s : AppState, InSync (resetTransforms s)) ∧
    (∀ (atob : String → Except String (List ℕ))
       (parseStl : List ℕ → Except String Unit)
       (s : AppState) (stl code : String) (bytes : List ℕ),
      jsTrim s.prompt ≠ "" → atob stl = .ok bytes →
      parseStl bytes = .ok () →
      (handleGenerate atob parseStl s (.success stl code)).1.meshRef =
        some (freshMesh s.nextId) ∧
      (freshMesh s.nextId).position = Vec3.zero ∧
      (freshMesh s.nextId).scale = Vec3.one ∧
      (freshMesh s.nextId).rotationPi = Vec3.zero ∧
      (handleGenerate atob parseStl s (.success stl code)).1.position =
        s.position ∧
      (handleGenerate atob parseStl s (.success stl code)).1.scale =
        s.scale ∧
      (handleGenerate atob parseStl s (.success stl code)).1.rotation =
        s.rotation) := by
  refine ⟨?_, ?_, ?_, ?_, ?_⟩
  · intro s a v hs m hm
    cases hM : s.meshRef with
    | none => simp [updatePosition, hM] at hm
    | some m0 =>
      simp only [updatePosition, hM, Option.map_some] at hm
      obtain rfl := (Option.some.injEq _ _).mp hm
      exact ⟨rfl, (hs m0 hM).2.1, (hs m0 hM).2.2⟩
  · intro s a v hs m hm
    cases hM : s.meshRef with
    | none => simp [updateScale, hM] at hm
    | some m0 =>
      simp only [updateScale, hM, Option.map_some] at hm
      obtain rfl := (Option.some.injEq _ _).mp hm
      exact ⟨(hs m0 hM).1, rfl, (hs m0 hM).2.2⟩
  · intro s a v hs m hm
    cases hM : s.meshRef with
    | none => simp [updateRotation, hM] at hm
    | some m0 =>
      simp only [updateRotation, hM, Option.map_some] at hm
      obtain rfl := (Option.some.injEq _ _).mp hm
      exact ⟨(hs m0 hM).1, (hs m0 hM).2.1, rfl⟩
  · intro s m hm
    cases hM : s.meshRef with
    | none => simp [resetTransforms, hM] at hm
    | some m0 =>
      simp only [resetTransforms, hM, Option.map_some] at hm
      obtain rfl := (Option.some.injEq _ _).mp hm
      refine ⟨rfl, rfl, ?_⟩
      simp [resetTransforms, Vec3.divBy, Vec3.zero]
  · intro atob parseStl s stl code bytes h hA hP
    refine ⟨?_, rfl, rfl, rfl, handleGenerate_position atob parseStl s _,
      handleGenerate_scale atob parseStl s _,
      handleGenerate_rotation atob parseStl s _⟩
    simp [handleGenerate, h, hA, hP, disposeOld_nextId]

/-- Witness for C3: a setter call preserves sync on the fixture state
(which is in sync), and a successful generation from the fixture
installs an identity-transformed mesh while keeping the stored
vectors. -/
theorem C3_transformSync_witness :
    InSync fixtureWithMesh ∧
    InSync (updatePosition fixtureWithMesh Axis.x 5) ∧
    InSync (resetTransforms fixtureWithMesh) ∧
    (jsTrim fixtureWithMesh.prompt ≠ "" ∧
      (handleGenerate okAtob okParse fixtureWithMesh
          (.success "QUJD" "sphere(5);")).1.meshRef =
        some (freshMesh fixtureWithMesh.nextId)) := by
  have hsync : InSync fixtureWithMesh := by
    intro m hm
    obtain rfl := (Option.some.injEq _ _).mp hm.symm
    refine ⟨rfl, rfl, ?_⟩
    simp [freshMesh, Vec3.divBy, Vec3.zero, fixtureWithMesh, initialState]
  refine ⟨hsync, C3_transformSync.1 fixtureWithMesh Axis.x 5 hsync,
    C3_transformSync.2.2.2.1 fixtureWithMesh, by decide, ?_⟩
  exact (C3_transformSync.2.2.2.2 okAtob okParse fixtureWithMesh "QUJD"
    "sphere(5);" [] (by decide) rfl rfl).1

/-- Counterexample to C3 as stated: in the reachable state where the
user moved the mesh to x = 5 and then generated again, the stored
position is (5,0,0) while the newly installed mesh sits at the
origin. -/
theorem C3_cex :
    Reachable genTwiceMoved ∧
    ∃ m, genTwiceMoved.meshRef = some m ∧
      m.position ≠ genTwiceMoved.position := by
  constructor
  · exact Relation.ReflTransGen.tail (Relation.ReflTransGen.tail
      (Relation.ReflTransGen.tail (Relation.ReflTransGen.tail
        (Relation.ReflTransGen.tail Relation.ReflTransGen.refl
          (Step.editPrompt initialState "a"))
        (Step.generate _ okAtob okParse (.success "QUJD" "cube(10);")))
      (Step.pos _ Axis.x 5))
      (Step.editPrompt _ "b"))
      (Step.generate _ okAtob okParse (.success "QUJD" "sphere(5);"))
  · exact ⟨freshMesh 4, by decide, by decide⟩

/-! ## C4 — mesh lifecycle -/

/-- Under the scene invariant, the disposal block always empties the
scene of generated meshes. -/
theorem disposeOld_sceneMeshes_eq_nil {s : AppState} (hs : SceneInv s) :
    (disposeOld s).sceneMeshes = [] := by
  rcases hs with he | ⟨m, hm, he⟩
  · cases hM : s.meshRef <;> simp [disposeOld, hM, he]
  · simp [disposeOld, hm, he]

/-- A generation attempt preserves the scene invariant. -/
theorem sceneInv_handleGenerate (atob : String → Except String (List ℕ))
    (parseStl : List ℕ → Except String Unit) (s : AppState)
    (resp : HttpResponse) (hs : SceneInv s) :
    SceneInv (handleGenerate atob parseStl s resp).1 := by
  by_cases h : jsTrim s.prompt = ""
  · simp only [handleGenerate, if_pos h]
    exact hs
  · cases resp with
    | failure body =>
      simp only [handleGenerate, if_neg h]
      exact hs
    | success stl code =>
      cases hA : atob stl with
      | error e =>
        simp only [handleGenerate, if_neg h, hA]
        exact hs
      | ok bytes =>
        cases hP : parseStl bytes with
        | error e =>
          simp only [handleGenerate, if_neg h, hA, hP]
          left
          exact disposeOld_sceneMeshes_eq_nil hs
        | ok u =>
          simp only [handleGenerate, if_neg h, hA, hP]
          right
          have hnil :
              (disposeOld
                { s with generatedCode := code, currentStlData := some stl }).sceneMeshes = [] :=
            disposeOld_sceneMeshes_eq_nil hs
          exact ⟨_, rfl, by simp [hnil]⟩

/-- Every event of the component preserves the scene invariant. -/
theorem sceneInv_step {s t : AppState} (hs : SceneInv s) (h : Step s t) :
    SceneInv t := by
  cases h with
  | generate atob parseStl resp =>
    exact sceneInv_handleGenerate atob parseStl s resp hs
  | editPrompt p => exact hs
  | pos a v =>
    rcases hs with he | ⟨m, hm, he⟩
    · left; exact he
    · right
      exact ⟨{ m with position := s.position.setAxis a v },
        by simp [updatePosition, hm], he⟩
  | scl a v =>
    rcases hs with he | ⟨m, hm, he⟩
    · left; exact he
    · right
      exact ⟨{ m with scale := s.scale.setAxis a (max (1/10) v) },
        by simp [updateScale, hm], he⟩
  | rot a v =>
    rcases hs with he | ⟨m, hm, he⟩
    · left; exact he
    · right
      exact ⟨{ m with rotationPi := (s.rotation.setAxis a v).divBy 180 },
        by simp [updateRotation, hm], he⟩
  | reset =>
    rcases hs with he | ⟨m, hm, he⟩
    · left; exact he
    · right
      refine ⟨{ m with position := Vec3.zero, scale := Vec3.one, rotationPi := Vec3.zero }, ?_, he⟩
      simp [resetTransforms, hm]

/-- The scene invariant holds in every reachable state. -/
theorem reachable_sceneInv {s : AppState} (h : Reachable s) : SceneInv s := by
  induction h with
  | refl => left; rfl
  | tail _ hstep ih => exact sceneInv_step ih hstep

/-- C4 (amended): at most one generated mesh is in the scene in every
reachable state, and a successful generation that replaces a prior mesh
disposes exactly that mesh's own geometry and material — the geometry
and material of its child wireframe overlay are not released. -/
theorem C4_meshLifecycle :
    (∀ s, Reachable s → s.sceneMeshes.length ≤ 1) ∧
    (∀ (atob : String → Except String (List ℕ))
       (parseStl : List ℕ → Except String Unit)
       (s : AppState) (m : MeshObj) (stl code : String) (bytes : List ℕ),
      jsTrim s.prompt ≠ "" → s.meshRef = some m → atob stl = .ok bytes →
      parseStl bytes = .ok () →
      (handleGenerate atob parseStl s (.success stl code)).1.disposed =
        s.disposed ++ [m.geomId, m.matId] ∧
      m.geomId ∈
        (handleGenerate atob parseStl s (.success stl code)).1.disposed ∧
      m.matId ∈
        (handleGenerate atob parseStl s (.success stl code)).1.disposed ∧
      (m.wireGeomId ∉ s.disposed → m.wireGeomId ≠ m.geomId →
        m.wireGeomId ≠ m.matId →
        m.wireGeomId ∉
          (handleGenerate atob parseStl s (.success stl code)).1.disposed) ∧
      (m.wireMatId ∉ s.disposed → m.wireMatId ≠ m.geomId →
        m.wireMatId ≠ m.matId →
        m.wireMatId ∉
          (handleGenerate atob parseStl s (.success stl code)).1.disposed)) := by
  constructor
  · intro s h
    rcases reachable_sceneInv h with he | ⟨m, hm, he⟩ <;> simp [he]
  · intro atob parseStl s m stl code bytes h hm hA hP
    have hd : (handleGenerate atob parseStl s (.success stl code)).1.disposed =
        s.disposed ++ [m.geomId, m.matId] := by
      simp [handleGenerate, h, hA, hP, disposeOld, hm]
    refine ⟨hd, by simp [hd], by simp [hd], ?_, ?_⟩
    · intro h1 h2 h3
      simp [hd, h2, h3]
      exact h1
    · intro h1 h2 h3
      simp [hd, h2, h3]
      exact h1

/-- Witness for C4: the initial state is reachable with an empty scene,
and replacing the fixture mesh (resource ids 0-3) disposes exactly ids
0 and 1, leaving the wireframe's ids 2 and 3 undisposed. -/
theorem C4_meshLifecycle_witness :
    initialState.sceneMeshes.length ≤ 1 ∧
    (handleGenerate okAtob okParse fixtureWithMesh
        (.success "QUJD" "sphere(5);")).1.disposed =
      fixtureWithMesh.disposed ++ [0, 1] ∧
    (2 : ℕ) ∉ (handleGenerate okAtob okParse fixtureWithMesh
        (.success "QUJD" "sphere(5);")).1.disposed :=
  ⟨C4_meshLifecycle.1 initialState Relation.ReflTransGen.refl,
   (C4_meshLifecycle.2 okAtob okParse fixtureWithMesh (freshMesh 0) "QUJD"
      "sphere(5);" [] (by decide) rfl rfl rfl).1,
   (C4_meshLifecycle.2 okAtob okParse fixtureWithMesh (freshMesh 0) "QUJD"
      "sphere(5);" [] (by decide) rfl rfl rfl).2.2.2.1
     (by decide) (by decide) (by decide)⟩

/-- Counterexample to C4 as stated: replacing the fixture mesh leaves
the wireframe overlay's geometry (id 2) and material (id 3)
undisposed. -/
theorem C4_cex :
    (2 : ℕ) ∉ (handleGenerate okAtob okParse fixtureWithMesh
        (.success "QUJD" "sphere(5);")).1.disposed ∧
    (3 : ℕ) ∉ (handleGenerate okAtob okParse fixtureWithMesh
        (.success "QUJD" "sphere(5);")).1.disposed := by
  decide

/-! ## C8 — camera fit -/

/-- Half the vertical field of view lies strictly between 0 and π/2, so
its tangent is positive. -/
theorem tan_fovRad_half_pos : 0 < Real.tan (fovRad / 2) := by
  have hpi := Real.pi_pos
  apply Real.tan_pos_of_pos_of_lt_pi_div_two
  · unfold fovRad
    nlinarith
  · unfold fovRad
    nlinarith

/-- C8 (amended): for every mesh (largest bounding-box dimension is
nonnegative) the camera-fit sets all three camera coordinates to
`(maxDim / 2) / tan(fov/2) * 1.5` and points the camera at the origin;
for a zero-size bounding box the resulting position is exactly the
origin — finite, but with no minimum-distance fallback. -/
theorem C8_cameraFit (maxDim : ℝ) (h : 0 ≤ maxDim) :
    (fitCameraTo maxDim).posX = maxDim / 2 / Real.tan (fovRad / 2) * 1.5 ∧
    (fitCameraTo maxDim).posY = maxDim / 2 / Real.tan (fovRad / 2) * 1.5 ∧
    (fitCameraTo maxDim).posZ = maxDim / 2 / Real.tan (fovRad / 2) * 1.5 ∧
    (fitCameraTo maxDim).targetX = 0 ∧
    (fitCameraTo maxDim).targetY = 0 ∧
    (fitCameraTo maxDim).targetZ = 0 ∧
    (fitCameraTo 0).posX = 0 ∧
    (fitCameraTo 0).posY = 0 ∧
    (fitCameraTo 0).posZ = 0 := by
  have habs : cameraFitDistance maxDim =
      maxDim / 2 / Real.tan (fovRad / 2) * 1.5 := by
    unfold cameraFitDistance
    rw [abs_of_nonneg]
    exact div_nonneg (div_nonneg h (by norm_num)) tan_fovRad_half_pos.le
  have hzero : cameraFitDistance 0 = 0 := by
    simp [cameraFitDistance]
  exact ⟨habs, habs, habs, rfl, rfl, rfl, hzero, hzero, hzero⟩

/-- Witness for C8 at a bounding box whose largest dimension is 2. -/
theorem C8_cameraFit_witness :
    (0 : ℝ) ≤ 2 ∧
    (fitCameraTo 2).posX = 2 / 2 / Real.tan (fovRad / 2) * 1.5 ∧
    (fitCameraTo 2).targetX = 0 :=
  ⟨zero_le_two, (C8_cameraFit 2 zero_le_two).1,
   (C8_cameraFit 2 zero_le_two).2.2.2.1⟩

/-- Counterexample to C8's fallback clause: for a zero-size bounding
box the computed fit distance is exactly 0 — the camera is placed at
the origin, not at any positive minimum fallback distance. -/
theorem C8_cex : cameraFitDistance 0 = 0 ∧ ¬ 0 < cameraFitDistance 0 := by
  have h0 : cameraFitDistance 0 = 0 := by simp [cameraFitDistance]
  exact ⟨h0, by rw [h0]; exact lt_irrefl 0⟩

end McHacks
